import Mathlib

/-!
Shallow embedding of the chat-relay core of `src/chat.go` (plus the helper
files `helpers.go` / `main.go`) of the simple-chat-app repository, together
with theorems settling the frozen claims about its specification.

The embedding models:
  * the data model (`MessagePayload`, `MessageData`, `subscriber`,
    `chatRoom`, `chatServer`), with Go maps rendered as association lists
    and Go channels rendered as a capacity record;
  * `createRoom`, `deleteRoom`, `addSubscriber`, `deleteSubscriber`,
    `shouldSendMessage`, and the connect phase, reader-loop body, writer
    loop and deferred teardown of `subscribeHandler`;
  * the JSON validity check performed by `json.Unmarshal` into a
    `json.RawMessage` (an external stdlib primitive, modelled by an
    executable validator of the JSON grammar);
  * synchronization and task-spawning behaviour as explicit effect traces
    (lock/unlock, map mutation, channel enqueue, task spawn), read off the
    statements of the corresponding Go function bodies.  Logging calls are
    an excluded collaborator and are represented only where the trace
    granularity needs them.
-/

/-! ## Model of `encoding/json` validity

`json.Unmarshal(data, &js)` with `js : json.RawMessage` succeeds exactly
when `data` is a single syntactically valid JSON value (surrounded by
optional whitespace).  The Go JSON decoder is an external stdlib
collaborator; `jsonValid` is an executable model of that validity check,
implementing the JSON grammar (objects, arrays, strings with escapes,
numbers, `true`, `false`, `null`).
-/

/-- Opening brace character, written via its code point. -/
def lbrace : Char := Char.ofNat 123

/-- Closing brace character, written via its code point. -/
def rbrace : Char := Char.ofNat 125

/-- JSON insignificant whitespace characters. -/
def jsonWS (c : Char) : Bool := c == ' ' || c == '\t' || c == '\n' || c == '\r'

/-- Drop leading JSON whitespace. -/
def skipWS : List Char → List Char
  | [] => []
  | c :: cs => if jsonWS c then skipWS cs else c :: cs

/-- Hexadecimal digit test, for string escapes of the form backslash-u. -/
def isHexDigit (c : Char) : Bool :=
  c.isDigit || ('a' ≤ c && c ≤ 'f') || ('A' ≤ c && c ≤ 'F')

/-- Consume the given expected characters from the front of the input. -/
def expectChars : List Char → List Char → Option (List Char)
  | [], cs => some cs
  | _ :: _, [] => none
  | e :: es, c :: cs => if c = e then expectChars es cs else none

/-- Consume the body of a JSON string after the opening quote, including
escape sequences; control characters below 0x20 are invalid. -/
def parseStringBody : List Char → Option (List Char)
  | [] => none
  | c :: cs =>
    if c = '"' then some cs
    else if c = '\\' then
      match cs with
      | [] => none
      | e :: cs2 =>
        if e = '"' || e = '\\' || e = '/' || e = 'b' || e = 'f' || e = 'n'
            || e = 'r' || e = 't' then
          parseStringBody cs2
        else if e = 'u' then
          match cs2 with
          | a :: b :: c3 :: d :: cs3 =>
            if isHexDigit a && isHexDigit b && isHexDigit c3 && isHexDigit d then
              parseStringBody cs3
            else none
          | _ => none
        else none
    else if c.val < 32 then none
    else parseStringBody cs

/-- Consume the exponent part of a JSON number, if present. -/
def parseExpPart : List Char → Option (List Char)
  | [] => some []
  | c :: rest =>
    if c = 'e' || c = 'E' then
      let rest2 := match rest with
        | s :: r => if s = '+' || s = '-' then r else s :: r
        | [] => []
      match rest2 with
      | d :: r => if d.isDigit then some (List.dropWhile Char.isDigit r) else none
      | [] => none
    else some (c :: rest)

/-- Consume the fraction and exponent parts of a JSON number, if present. -/
def parseFracPart : List Char → Option (List Char)
  | '.' :: rest =>
    (match rest with
     | d :: rest2 =>
       if d.isDigit then parseExpPart (List.dropWhile Char.isDigit rest2) else none
     | [] => none)
  | cs => parseExpPart cs

/-- Consume a JSON number after an optional leading minus sign: the integer
part is a single zero or a nonzero digit followed by digits. -/
def parseNumberAfterSign : List Char → Option (List Char)
  | [] => none
  | c :: cs =>
    if c = '0' then parseFracPart cs
    else if c.isDigit then parseFracPart (List.dropWhile Char.isDigit cs)
    else none

mutual

/-- Consume a single JSON value.  The fuel argument strictly decreases on
every recursive call; `jsonValid` supplies enough fuel for any input. -/
def parseValue : Nat → List Char → Option (List Char)
  | 0, _ => none
  | _ + 1, [] => none
  | fuel + 1, c :: rest =>
    if c = '"' then parseStringBody rest
    else if c = lbrace then
      match skipWS rest with
      | [] => none
      | c2 :: rest2 =>
        if c2 = rbrace then some rest2 else parseMembers fuel (c2 :: rest2)
    else if c = '[' then
      match skipWS rest with
      | [] => none
      | c2 :: rest2 =>
        if c2 = ']' then some rest2 else parseElements fuel (c2 :: rest2)
    else if c = '-' then parseNumberAfterSign rest
    else if c.isDigit then parseNumberAfterSign (c :: rest)
    else if c = 't' then expectChars ['r', 'u', 'e'] rest
    else if c = 'f' then expectChars ['a', 'l', 's', 'e'] rest
    else if c = 'n' then expectChars ['u', 'l', 'l'] rest
    else none

/-- Consume one or more comma-separated JSON object members followed by the
closing brace. -/
def parseMembers : Nat → List Char → Option (List Char)
  | 0, _ => none
  | _ + 1, [] => none
  | fuel + 1, c :: rest =>
    if c = '"' then
      match parseStringBody rest with
      | none => none
      | some cs2 =>
        match skipWS cs2 with
        | ':' :: cs3 =>
          match parseValue fuel (skipWS cs3) with
          | none => none
          | some cs4 =>
            match skipWS cs4 with
            | c5 :: cs5 =>
              if c5 = ',' then parseMembers fuel (skipWS cs5)
              else if c5 = rbrace then some cs5
              else none
            | [] => none
        | _ => none
    else none

/-- Consume one or more comma-separated JSON array elements followed by the
closing bracket. -/
def parseElements : Nat → List Char → Option (List Char)
  | 0, _ => none
  | fuel + 1, cs =>
    match parseValue fuel cs with
    | none => none
    | some cs2 =>
      match skipWS cs2 with
      | c :: cs3 =>
        if c = ',' then parseElements fuel (skipWS cs3)
        else if c = ']' then some cs3
        else none
      | [] => none

end

/-- Model of the validity check of `json.Unmarshal(data, &js)` with
`js : json.RawMessage`: `data` must be one JSON value surrounded by
optional whitespace. -/
def jsonValid (s : String) : Bool :=
  let cs := skipWS s.toList
  match parseValue (2 * cs.length + 2) cs with
  | some rest => (skipWS rest).isEmpty
  | none => false

/-! ## Data model (`src/chat.go` lines 19-48) -/

/-- Wire payload struct of `src/chat.go` lines 40-44. -/
structure MessagePayload where
  senderId : String
  senderDisplayName : String
  text : String
deriving DecidableEq, Repr

/-- Wire message struct of `src/chat.go` lines 45-48. -/
structure MessageData where
  type : String
  payload : MessagePayload
deriving DecidableEq, Repr

/-- Model of a Go channel: Go channels always have a finite capacity
(`make(chan T)` is capacity 0, `make(chan T, n)` is capacity `n`); the
`none` case renders the hypothetical unbounded queue the specification
speaks about, which no Go channel has. -/
structure Chan where
  capacity : Option Nat
deriving DecidableEq, Repr

/-- The channel produced by `make(chan MessageData)` at line 188: an
unbuffered channel, capacity 0. -/
def makeChan : Chan := ⟨some 0⟩

/-- Whether a send on the channel blocks, given how many messages are
buffered in it and how many receivers are ready: a send proceeds only if a
receiver is ready or buffer space remains below the capacity. -/
def chanSendBlocks (c : Chan) (buffered receiversReady : Nat) : Bool :=
  match c.capacity with
  | none => false
  | some cap => decide (receiversReady = 0) && decide (cap ≤ buffered)

/-- Subscriber struct of `src/chat.go` lines 27-31. -/
structure subscriber where
  id : String
  displayName : String
  msgs : Chan
deriving DecidableEq, Repr

/-- Construction of the subscriber at `src/chat.go` lines 185-189: a fresh
uuid (passed in here), the caller-supplied display name, and an unbuffered
message channel. -/
def mkSubscriber (freshId displayName : String) : subscriber :=
  ⟨freshId, displayName, makeChan⟩

/-! ### Association lists standing for Go maps -/

/-- Lookup in a Go map rendered as an association list. -/
def assocLookup {α : Type} : List (String × α) → String → Option α
  | [], _ => none
  | (k2, v) :: rest, k => if k2 = k then some v else assocLookup rest k

/-- Insertion (`m[k] = v`) in a Go map rendered as an association list. -/
def assocInsert {α : Type} (m : List (String × α)) (k : String) (v : α) :
    List (String × α) :=
  (k, v) :: m.filter (fun p => decide (p.1 ≠ k))

/-- Deletion (`delete(m, k)`) in a Go map rendered as an association list;
idempotent, a no-op on an absent key. -/
def assocErase {α : Type} (m : List (String × α)) (k : String) :
    List (String × α) :=
  m.filter (fun p => decide (p.1 ≠ k))

/-- In-place update of the value stored at one key, leaving the key set
unchanged. -/
def assocUpdate {α : Type} (m : List (String × α)) (k : String) (f : α → α) :
    List (String × α) :=
  m.map (fun p => if p.1 = k then (p.1, f p.2) else p)

/-- Room struct of `src/chat.go` lines 19-25; the mutex is not part of the
data state, it appears in the effect traces below. -/
structure chatRoom where
  id : String
  name : String
  subscribers : List (String × subscriber)
deriving DecidableEq, Repr

/-- Server struct of `src/chat.go` lines 33-38 (the room registry). -/
structure chatServer where
  rooms : List (String × chatRoom)
deriving DecidableEq, Repr

/-! ## Room registry operations (`src/chat.go` lines 82-112) -/

/-- Effects performed on server-wide state by a registry operation, read
off the statements of the Go function body; `spawnTask` would render a
`go` statement launching a background task. -/
inductive ServerEffect where
  | lockRooms
  | unlockRooms
  | logInfo
  | spawnTask
deriving DecidableEq, Repr

/-- `createRoom` of `src/chat.go` lines 82-94: under the registry lock, log,
construct a room with an empty subscriber map, and insert it.  The second
component is the effect trace of the body: lock, info log, unlock — the
body contains no `go` statement, so no task is spawned. -/
def createRoom (cs : chatServer) (roomId name : String) :
    chatServer × List ServerEffect :=
  (⟨assocInsert cs.rooms roomId ⟨roomId, name, []⟩⟩,
   [ServerEffect.lockRooms, ServerEffect.logInfo, ServerEffect.unlockRooms])

/-- `deleteRoom` of `src/chat.go` lines 96-100: remove the registry entry
under the lock.  No call site of this function exists anywhere in the
repository. -/
def deleteRoom (cs : chatServer) (roomId : String) : chatServer :=
  ⟨assocErase cs.rooms roomId⟩

/-- Effects performed on a room's state by one of its operations or by the
fan-out loop, read off the statements of the Go source; `snapshotMembers`
would render copying the membership map before iterating it (no such copy
exists in the source). -/
inductive RoomEffect where
  | lockSubscribers
  | unlockSubscribers
  | mapInsert (sid : String)
  | mapDelete (sid : String)
  | snapshotMembers
  | enqueue (sid : String) (msgData : MessageData)
deriving DecidableEq, Repr

/-- `addSubscriber` of `src/chat.go` lines 102-106: insert under the room's
subscriber lock. -/
def addSubscriber (room : chatRoom) (s : subscriber) : chatRoom :=
  { room with subscribers := assocInsert room.subscribers s.id s }

/-- Effect trace of the body of `addSubscriber`: lock, map insert, unlock. -/
def addSubscriberEffects (s : subscriber) : List RoomEffect :=
  [RoomEffect.lockSubscribers, RoomEffect.mapInsert s.id,
   RoomEffect.unlockSubscribers]

/-- `deleteSubscriber` of `src/chat.go` lines 108-112: delete under the
room's subscriber lock; idempotent. -/
def deleteSubscriber (room : chatRoom) (subscriberId : String) : chatRoom :=
  { room with subscribers := assocErase room.subscribers subscriberId }

/-- Effect trace of the body of `deleteSubscriber`: lock, map delete,
unlock. -/
def deleteSubscriberEffects (subscriberId : String) : List RoomEffect :=
  [RoomEffect.lockSubscribers, RoomEffect.mapDelete subscriberId,
   RoomEffect.unlockSubscribers]

/-! ## Reader loop: frame filtering and fan-out
(`src/chat.go` lines 163-166 and 209-244) -/

/-- `shouldSendMessage` of `src/chat.go` lines 163-166: it returns
`json.Unmarshal(data, &js) != nil`, which is `true` exactly when
unmarshalling FAILS, i.e. when the frame body is not valid JSON. -/
def shouldSendMessage (data : String) : Bool :=
  !(jsonValid data)

/-- The payload constructed at `src/chat.go` lines 220-224 for a frame read
from subscriber `s`: the sender's id and display name and the frame text. -/
def fanOutPayload (s : subscriber) (text : String) : MessagePayload :=
  ⟨s.id, s.displayName, text⟩

/-- The fan-out loop of `src/chat.go` lines 225-240, as the list of
(recipient id, message) enqueue operations it performs: one `text` message
per member of the room's subscriber map whose id differs from the sender's
(line 226), followed by one `self` message onto the sender's own channel
(lines 236-240).  `members` is the value list of `room.subscribers` in
iteration order. -/
def fanOutEnqueues (members : List subscriber) (s : subscriber)
    (text : String) : List (String × MessageData) :=
  (members.filter (fun member => decide (s.id ≠ member.id))).map
      (fun member => (member.id, ⟨"text", fanOutPayload s text⟩))
    ++ [(s.id, ⟨"self", fanOutPayload s text⟩)]

/-- Effect trace of the fan-out loop: the source iterates the live
`room.subscribers` map directly and performs channel sends; it contains no
lock acquisition and no membership snapshot. -/
def fanOutEffects (members : List subscriber) (s : subscriber)
    (text : String) : List RoomEffect :=
  (fanOutEnqueues members s text).map (fun q => RoomEffect.enqueue q.1 q.2)

/-- The body of the reader loop for a successfully read frame
(`src/chat.go` lines 219-241): if `shouldSendMessage` holds the fan-out
runs, otherwise nothing is enqueued. -/
def readerFrameEnqueues (members : List subscriber) (s : subscriber)
    (data : String) : List (String × MessageData) :=
  if shouldSendMessage data then fanOutEnqueues members s data else []

/-- The body of the reader loop when the transport read fails
(`src/chat.go` lines 213-217): a `terminate` sentinel with a zero payload
is enqueued onto the session's own channel and the loop returns. -/
def readerErrorEnqueues (s : subscriber) : List (String × MessageData) :=
  [(s.id, ⟨"terminate", ⟨"", "", ""⟩⟩)]

/-! ## Connect phase of `subscribeHandler` (`src/chat.go` lines 168-207) -/

/-- Outcome of the websocket upgrade `websocket.Accept` performed at
`src/chat.go` lines 192-194 (an external transport primitive). -/
inductive HandshakeResult where
  | ok
  | fail
deriving DecidableEq, Repr

/-- How the connect phase of `subscribeHandler` ends. `clientErr` is an
HTTP error response via `clientError`; `processExit` renders
`errorLog.Fatal`, which prints and calls `os.Exit(1)` — the
`cs.serverError(w, err)` call after it at line 198 is unreachable;
`active` means the session reaches its reader/writer loops. -/
inductive ConnectOutcome where
  | clientErr (status : Nat)
  | processExit
  | active
deriving DecidableEq, Repr

/-- Result of the connect phase: its outcome, whether the subscriber value
was constructed (line 185), and the resulting registry state. -/
structure ConnectResult where
  outcome : ConnectOutcome
  subscriberConstructed : Bool
  server : chatServer
deriving DecidableEq, Repr

/-- Connect phase of `subscribeHandler` (`src/chat.go` lines 168-207): look
up the room (404 if absent, before any subscriber exists), reject an empty
display name (400, before the subscriber is constructed), construct the
subscriber, attempt the websocket upgrade — on failure `errorLog.Fatal`
exits the process with the subscriber never added to any room — and on
success add the subscriber to the room's map. -/
def subscribeHandler (cs : chatServer) (roomId displayName freshId : String)
    (hs : HandshakeResult) : ConnectResult :=
  match assocLookup cs.rooms roomId with
  | none => ⟨ConnectOutcome.clientErr 404, false, cs⟩
  | some _ =>
    if displayName = "" then ⟨ConnectOutcome.clientErr 400, false, cs⟩
    else
      match hs with
      | HandshakeResult.fail => ⟨ConnectOutcome.processExit, true, cs⟩
      | HandshakeResult.ok =>
        ⟨ConnectOutcome.active, true,
         ⟨assocUpdate cs.rooms roomId
            (fun room => addSubscriber room (mkSubscriber freshId displayName))⟩⟩

/-! ## Session teardown (`src/chat.go` lines 204-207) -/

/-- State touched by the deferred teardown block: the owning room's
subscriber map, whether the session's channel has been closed, and whether
a runtime panic has occurred (in Go, `close` of an already-closed channel
panics). -/
structure SessionCleanupState where
  roomSubscribers : List (String × subscriber)
  msgsClosed : Bool
  panicked : Bool
deriving DecidableEq, Repr

/-- The deferred teardown block of `src/chat.go` lines 204-207:
`room.deleteSubscriber(s.id)` (idempotent map delete) followed by
`close(s.msgs)`; closing an already-closed channel panics, which is
rendered by the `panicked` flag (a panicked run performs nothing further). -/
def sessionTeardown (sid : String) (st : SessionCleanupState) :
    SessionCleanupState :=
  if st.panicked then st
  else
    let st1 := { st with roomSubscribers := assocErase st.roomSubscribers sid }
    if st1.msgsClosed then { st1 with panicked := true }
    else { st1 with msgsClosed := true }

/-! ## Writer loop (`src/chat.go` lines 246-281) -/

/-- Outcome of the `ws.Write` call at line 262, classified the way lines
264-272 classify it via `websocket.CloseStatus`. -/
inductive WriteResult where
  | ok
  | errNormalClose
  | errGoingAway
  | errOther
deriving DecidableEq, Repr

/-- Result of handling one dequeued message in the writer loop: the frames
handed to `ws.Write`, whether an error was logged, and whether the loop
returns. -/
structure WriterStepResult where
  wireWrites : List MessageData
  loggedError : Bool
  stop : Bool
deriving DecidableEq, Repr

/-- The `switch msgData.Type` of `src/chat.go` lines 250-276. On
`terminate`: log info and return, writing nothing. On `text` or `self`:
marshal (for this struct of strings `json.Marshal` cannot fail, so the
`continue` branch at line 259 is dead) and hand the message to `ws.Write`;
a write error classified as normal closure or going-away returns quietly,
any other write error logs and returns. On any other kind (`default`): log
an error and keep looping. -/
def writerHandleMsg (msgData : MessageData) (wr : WriteResult) :
    WriterStepResult :=
  if msgData.type = "terminate" then ⟨[], false, true⟩
  else if msgData.type = "text" ∨ msgData.type = "self" then
    match wr with
    | WriteResult.ok => ⟨[msgData], false, false⟩
    | WriteResult.errNormalClose => ⟨[msgData], false, true⟩
    | WriteResult.errGoingAway => ⟨[msgData], false, true⟩
    | WriteResult.errOther => ⟨[msgData], true, true⟩
  else ⟨[], true, false⟩

/-- One event the `select` of `src/chat.go` lines 247-280 can wake on: a
message dequeued from `s.msgs` (paired with the outcome the transport
write would have, should one be attempted), or cancellation of the request
context. -/
inductive WriterEvent where
  | queued (msgData : MessageData) (wr : WriteResult)
  | ctxDone
deriving DecidableEq, Repr

/-- The writer loop of `src/chat.go` lines 246-281 over a sequence of
events: context cancellation returns immediately; a dequeued message is
handled by `writerHandleMsg`, stopping or continuing as it says.  The
value is the list of frames handed to the transport, in order. -/
def writerRun : List WriterEvent → List MessageData
  | [] => []
  | WriterEvent.ctxDone :: _ => []
  | WriterEvent.queued m wr :: rest =>
    let st := writerHandleMsg m wr
    st.wireWrites ++ (if st.stop then [] else writerRun rest)

/-! ## Handler-reachable registry operations

The operations on the registry state actually invoked by some handler of
the repository: `createRoomHandler` calls `createRoom` (line 133);
`subscribeHandler` calls `addSubscriber` (line 203) and, in its deferred
teardown, `deleteSubscriber` (line 205); `roomHealthCheckHandler` only
reads.  No handler — indeed no code in the repository — calls
`deleteRoom`. -/

/-- A state-changing operation some handler performs on the registry. -/
inductive HandlerOp where
  | create (roomId name : String)
  | join (roomId displayName freshId : String)
  | leave (roomId sid : String)
deriving DecidableEq, Repr

/-- Apply one handler-reachable operation to the registry state. -/
def applyHandlerOp (cs : chatServer) : HandlerOp → chatServer
  | HandlerOp.create roomId name => (createRoom cs roomId name).1
  | HandlerOp.join roomId displayName freshId =>
    (subscribeHandler cs roomId displayName freshId HandshakeResult.ok).server
  | HandlerOp.leave roomId sid =>
    ⟨assocUpdate cs.rooms roomId (fun room => deleteSubscriber room sid)⟩

/-- Apply a sequence of handler-reachable operations. -/
def runHandlerOps (cs : chatServer) (ops : List HandlerOp) : chatServer :=
  ops.foldl applyHandlerOp cs

/-! ## Concrete fixtures used by witnesses and counterexamples -/

/-- Concrete subscriber used by witnesses and counterexamples. -/
def cexAlice : subscriber := mkSubscriber "id-alice" "alice"

/-- Concrete subscriber used by witnesses and counterexamples. -/
def cexBob : subscriber := mkSubscriber "id-bob" "bob"

/-- Concrete message payload used by witnesses. -/
def cexPayload : MessagePayload := ⟨"id-alice", "alice", "hi"⟩

/-- Concrete room holding `cexAlice`. -/
def cexRoom : chatRoom := ⟨"room-1", "general", [("id-alice", cexAlice)]⟩

/-- Concrete registry holding `cexRoom`. -/
def cexServer : chatServer := ⟨[("room-1", cexRoom)]⟩

/-- Concrete teardown state: one subscriber in the room, channel open. -/
def cexCleanup : SessionCleanupState :=
  ⟨[("id-alice", cexAlice)], false, false⟩

/-- Number of occurrences of an element in a list. -/
def countOccur {β : Type} [DecidableEq β] (x : β) : List β → Nat
  | [] => 0
  | y :: rest => (if y = x then 1 else 0) + countOccur x rest

/-! ## Shared helper lemmas -/

theorem assocLookup_filter_ne {α : Type} (m : List (String × α)) (k k2 : String)
    (h : ¬k = k2) :
    assocLookup (m.filter (fun p => decide (p.1 ≠ k))) k2 = assocLookup m k2 := by
  have h2 : ¬k2 = k := fun hc => h hc.symm
  induction m with
  | nil => rfl
  | cons p rest ih =>
    by_cases hp : p.1 = k
    · have hpk2 : ¬p.1 = k2 := fun hc => h (hp ▸ hc)
      simpa [List.filter_cons, hp, assocLookup, hpk2, h] using ih
    · by_cases hq : p.1 = k2
      · simp [List.filter_cons, hp, assocLookup, hq, h2]
      · simpa [List.filter_cons, hp, assocLookup, hq] using ih

theorem assocLookup_insert {α : Type} (m : List (String × α)) (k k2 : String)
    (v : α) :
    assocLookup (assocInsert m k v) k2 =
      if k = k2 then some v else assocLookup m k2 := by
  by_cases h : k = k2
  · simp [assocInsert, assocLookup, h]
  · rw [if_neg h]
    have := assocLookup_filter_ne m k k2 h
    simpa [assocInsert, assocLookup, h] using this

theorem assocLookup_update_isSome {α : Type} (m : List (String × α))
    (k k2 : String) (f : α → α) :
    (assocLookup (assocUpdate m k f) k2).isSome = (assocLookup m k2).isSome := by
  induction m with
  | nil => rfl
  | cons p rest ih =>
    simp only [assocUpdate, List.map_cons] at ih ⊢
    by_cases hp : p.1 = k
    · rw [if_pos hp]
      by_cases hq : p.1 = k2
      · simp [assocLookup, hq]
      · simp [assocLookup, hq, ih]
    · rw [if_neg hp]
      by_cases hq : p.1 = k2
      · simp [assocLookup, hq]
      · simp [assocLookup, hq, ih]

theorem assocErase_idem {α : Type} (m : List (String × α)) (k : String) :
    assocErase (assocErase m k) k = assocErase m k := by
  simp [assocErase, List.filter_filter]

/-! ## Claim C1 -/

/-- Claim C1 counterexample: the claim says a frame invokes fan-out if and
only if its body parses as valid JSON, but on the valid-JSON frame `true`
the reader-loop body enqueues nothing, while on the non-JSON frame `hello`
it does fan out.  `shouldSendMessage` returns `json.Unmarshal(...) != nil`,
which holds exactly for invalid JSON. -/
theorem C1_counterexample :
    jsonValid "true" = true ∧
    readerFrameEnqueues [cexAlice, cexBob] cexAlice "true" = [] ∧
    jsonValid "hello" = false ∧
    (readerFrameEnqueues [cexAlice, cexBob] cexAlice "hello").length = 2 := by
  refine ⟨rfl, rfl, rfl, rfl⟩

/-- Claim C1 (amended): for every frame successfully read by the reader
loop, the room fan-out is invoked (enqueuing messages) if and only if the
frame body does NOT parse as valid JSON; a frame that parses as valid JSON
is silently dropped with no fan-out and no error. -/
theorem C1_fanout_iff_frame_not_json (members : List subscriber)
    (s : subscriber) (data : String) :
    readerFrameEnqueues members s data ≠ [] ↔ jsonValid data = false := by
  unfold readerFrameEnqueues shouldSendMessage
  cases h : jsonValid data
  · simp [h, fanOutEnqueues]
  · simp [h]

/-! ## Claim C4 -/

/-- Claim C4: the code calls `errorLog.Fatal` on handshake failure, which
exits the whole process (the `serverError` call after it is unreachable),
contradicting the claim that no core-level condition terminates the
process and that the failure is surfaced as a server error.  The
subscriber is indeed never added: the registry state is unchanged. -/
theorem C4_handshake_failure_exits_process :
    (subscribeHandler cexServer "room-1" "alice" "sid-w4"
        HandshakeResult.fail).outcome = ConnectOutcome.processExit ∧
    (subscribeHandler cexServer "room-1" "alice" "sid-w4"
        HandshakeResult.fail).server = cexServer := ⟨rfl, rfl⟩

/-! ## Claim C5 -/

/-- Claim C5 counterexample: invoking the session teardown block twice is
not the same as invoking it once — the second `close(s.msgs)` closes an
already-closed channel, which panics. -/
theorem C5_counterexample :
    (sessionTeardown "id-alice" cexCleanup).panicked = false ∧
    (sessionTeardown "id-alice"
        (sessionTeardown "id-alice" cexCleanup)).panicked = true := by
  refine ⟨rfl, rfl⟩

/-- Claim C5 (amended): a single teardown removes the subscriber from the
room, closes the queue, and does not panic; the removal itself is
idempotent (a second invocation leaves the membership unchanged), but the
queue close is not — a second invocation panics on closing the
already-closed channel.  In the code the teardown block runs exactly once
per session, as a single deferred block. -/
theorem C5_teardown_once_safe_twice_panics (sid : String)
    (st : SessionCleanupState) (h1 : st.panicked = false)
    (h2 : st.msgsClosed = false) :
    (sessionTeardown sid st).roomSubscribers =
      assocErase st.roomSubscribers sid ∧
    (sessionTeardown sid st).msgsClosed = true ∧
    (sessionTeardown sid st).panicked = false ∧
    (sessionTeardown sid (sessionTeardown sid st)).roomSubscribers =
      (sessionTeardown sid st).roomSubscribers ∧
    (sessionTeardown sid (sessionTeardown sid st)).panicked = true := by
  unfold sessionTeardown
  simp [h1, h2, assocErase_idem]

/-- Claim C5 witness: the amended teardown behaviour evaluated on a
concrete session state. -/
theorem C5_witness :
    cexCleanup.panicked = false ∧ cexCleanup.msgsClosed = false ∧
    ((sessionTeardown "id-alice" cexCleanup).roomSubscribers =
        assocErase cexCleanup.roomSubscribers "id-alice" ∧
      (sessionTeardown "id-alice" cexCleanup).msgsClosed = true ∧
      (sessionTeardown "id-alice" cexCleanup).panicked = false ∧
      (sessionTeardown "id-alice"
          (sessionTeardown "id-alice" cexCleanup)).roomSubscribers =
        (sessionTeardown "id-alice" cexCleanup).roomSubscribers ∧
      (sessionTeardown "id-alice"
          (sessionTeardown "id-alice" cexCleanup)).panicked = true) :=
  ⟨rfl, rfl, C5_teardown_once_safe_twice_panics "id-alice" cexCleanup rfl rfl⟩

/-! ## Claim C6 -/

/-- Claim C6 counterexample: the subscriber's inbound queue is created by
`make(chan MessageData)`, an unbuffered channel of capacity 0, not an
unbounded queue; an enqueue on it with no ready receiver blocks. -/
theorem C6_counterexample :
    (mkSubscriber "sid-c6" "carol").msgs.capacity = some 0 ∧
    chanSendBlocks (mkSubscriber "sid-c6" "carol").msgs 0 0 = true := by
  refine ⟨rfl, rfl⟩

/-- Claim C6 (amended): every subscriber's inbound queue is an unbuffered
channel (capacity 0), so a fan-out enqueue onto a member's queue suspends
whenever that member's writer loop is not ready to receive — a slow reader
stalls the sender — and proceeds only when a receiver is waiting. -/
theorem C6_queue_unbuffered_send_blocks (freshId displayName : String)
    (buffered r : Nat) (hr : 0 < r) :
    (mkSubscriber freshId displayName).msgs.capacity = some 0 ∧
    chanSendBlocks (mkSubscriber freshId displayName).msgs buffered 0 = true ∧
    chanSendBlocks (mkSubscriber freshId displayName).msgs buffered r = false := by
  have hr0 : ¬r = 0 := Nat.pos_iff_ne_zero.mp hr
  refine ⟨rfl, ?_, ?_⟩
  · simp [mkSubscriber, makeChan, chanSendBlocks]
  · simp [mkSubscriber, makeChan, chanSendBlocks, hr0]

/-- Claim C6 witness: the unbuffered-queue behaviour on concrete values. -/
theorem C6_witness :
    0 < 1 ∧
    ((mkSubscriber "sid-w6" "erin").msgs.capacity = some 0 ∧
      chanSendBlocks (mkSubscriber "sid-w6" "erin").msgs 0 0 = true ∧
      chanSendBlocks (mkSubscriber "sid-w6" "erin").msgs 0 1 = false) :=
  ⟨Nat.zero_lt_one,
   C6_queue_unbuffered_send_blocks "sid-w6" "erin" 0 1 Nat.zero_lt_one⟩

/-! ## Claim C8 -/

/-- Claim C8: a Join with an unknown room id is rejected with a 404 before
the subscriber value is constructed and with the registry (hence every
room's membership) unchanged; a Join with an empty display name is
rejected before the subscriber is constructed, also leaving the registry
unchanged. -/
theorem C8_join_rejected_before_subscriber (cs : chatServer)
    (roomId displayName freshId : String) (hs : HandshakeResult) :
    (assocLookup cs.rooms roomId = none →
      (subscribeHandler cs roomId displayName freshId hs).outcome =
        ConnectOutcome.clientErr 404 ∧
      (subscribeHandler cs roomId displayName freshId hs).subscriberConstructed =
        false ∧
      (subscribeHandler cs roomId displayName freshId hs).server = cs) ∧
    (displayName = "" →
      (subscribeHandler cs roomId displayName freshId hs).subscriberConstructed =
        false ∧
      (subscribeHandler cs roomId displayName freshId hs).server = cs) := by
  constructor
  · intro h
    simp [subscribeHandler, h]
  · intro h
    cases hl : assocLookup cs.rooms roomId <;> simp [subscribeHandler, hl, h]

/-- Claim C8 witness: the rejection behaviour evaluated on a concrete
registry, once for an unknown room id and once for an empty display
name. -/
theorem C8_witness :
    assocLookup cexServer.rooms "no-such-room" = none ∧
    ((subscribeHandler cexServer "no-such-room" "dana" "sid-w8"
        HandshakeResult.ok).outcome = ConnectOutcome.clientErr 404 ∧
      (subscribeHandler cexServer "no-such-room" "dana" "sid-w8"
        HandshakeResult.ok).subscriberConstructed = false ∧
      (subscribeHandler cexServer "no-such-room" "dana" "sid-w8"
        HandshakeResult.ok).server = cexServer) ∧
    ((subscribeHandler cexServer "room-1" "" "sid-w8"
        HandshakeResult.ok).subscriberConstructed = false ∧
      (subscribeHandler cexServer "room-1" "" "sid-w8"
        HandshakeResult.ok).server = cexServer) :=
  ⟨rfl,
   (C8_join_rejected_before_subscriber cexServer "no-such-room" "dana" "sid-w8"
      HandshakeResult.ok).1 rfl,
   (C8_join_rejected_before_subscriber cexServer "room-1" "" "sid-w8"
      HandshakeResult.ok).2 rfl⟩

/-! ## Claim C3 -/

theorem applyHandlerOp_preserves_room (cs : chatServer) (op : HandlerOp)
    (rid : String) (h : (assocLookup cs.rooms rid).isSome = true) :
    (assocLookup (applyHandlerOp cs op).rooms rid).isSome = true := by
  cases op with
  | create roomId name =>
    simp only [applyHandlerOp, createRoom]
    by_cases hr : roomId = rid
    · simp [assocLookup_insert, hr]
    · simp [assocLookup_insert, hr, h]
  | join roomId displayName freshId =>
    simp only [applyHandlerOp]
    cases hl : assocLookup cs.rooms roomId with
    | none => simpa [subscribeHandler, hl] using h
    | some room =>
      by_cases hd : displayName = ""
      · simpa [subscribeHandler, hl, hd] using h
      · simpa [subscribeHandler, hl, hd, assocLookup_update_isSome] using h
  | leave roomId sid =>
    simpa [applyHandlerOp, assocLookup_update_isSome] using h

theorem runHandlerOps_preserves_room (cs : chatServer) (ops : List HandlerOp)
    (rid : String) (h : (assocLookup cs.rooms rid).isSome = true) :
    (assocLookup (runHandlerOps cs ops).rooms rid).isSome = true := by
  induction ops generalizing cs with
  | nil => simpa [runHandlerOps] using h
  | cons op rest ih =>
    simp only [runHandlerOps, List.foldl_cons]
    exact ih (applyHandlerOp cs op) (applyHandlerOp_preserves_room cs op rid h)

/-- Claim C3 counterexample: room creation starts no background task — the
effect trace of `createRoom` contains no task spawn, so no idle-reaper
polling every 30 time-units exists (nor does any code path ever call
`deleteRoom`). -/
theorem C3_counterexample :
    (createRoom ⟨[]⟩ "room-1" "general").2.contains ServerEffect.spawnTask =
      false ∧
    (createRoom ⟨[]⟩ "room-1" "general").2 =
      [ServerEffect.lockRooms, ServerEffect.logInfo, ServerEffect.unlockRooms] := by
  refine ⟨rfl, rfl⟩

/-- Claim C3 (amended): no idle-reaper task is ever started — `createRoom`
spawns no task — and no handler-reachable operation removes a room from
the registry (`deleteRoom` has no caller), so every room, with or without
subscribers, stays in the registry forever; in particular a room with a
subscriber is never removed. -/
theorem C3_no_reaper_rooms_never_removed (cs : chatServer)
    (roomId name rid : String) (ops : List HandlerOp)
    (h : (assocLookup cs.rooms rid).isSome = true) :
    (createRoom cs roomId name).2.contains ServerEffect.spawnTask = false ∧
    (assocLookup (runHandlerOps cs ops).rooms rid).isSome = true :=
  ⟨rfl, runHandlerOps_preserves_room cs ops rid h⟩

/-- Claim C3 witness: room persistence evaluated on a concrete registry and
a concrete operation sequence (a second room is created, a subscriber
joins and leaves the first room). -/
theorem C3_witness :
    (assocLookup cexServer.rooms "room-1").isSome = true ∧
    ((createRoom cexServer "room-2" "lounge").2.contains
        ServerEffect.spawnTask = false ∧
      (assocLookup (runHandlerOps cexServer
          [HandlerOp.create "room-2" "lounge",
           HandlerOp.join "room-1" "bob" "id-bob",
           HandlerOp.leave "room-1" "id-bob"]).rooms "room-1").isSome = true) :=
  ⟨rfl,
   C3_no_reaper_rooms_never_removed cexServer "room-2" "lounge" "room-1"
     [HandlerOp.create "room-2" "lounge",
      HandlerOp.join "room-1" "bob" "id-bob",
      HandlerOp.leave "room-1" "id-bob"] rfl⟩

/-! ## Claim C7 -/

/-- Claim C7: the fan-out loop of the reader goroutine performs only
channel enqueues — its effect trace contains neither an acquisition of the
room's subscriber lock nor a membership snapshot, while `addSubscriber`
and `deleteSubscriber` do take the lock.  The source iterates the live
`room.subscribers` map with no synchronization, so the claimed
snapshot-under-lock discipline is absent (the lock is trivially never held
across a blocking send, because it is never taken at all). -/
theorem C7_fanout_no_lock_no_snapshot (members : List subscriber)
    (s : subscriber) (text : String) :
    ((fanOutEffects members s text).all (fun e =>
        e != RoomEffect.lockSubscribers &&
        e != RoomEffect.snapshotMembers)) = true ∧
    addSubscriberEffects s =
      [RoomEffect.lockSubscribers, RoomEffect.mapInsert s.id,
       RoomEffect.unlockSubscribers] ∧
    deleteSubscriberEffects s.id =
      [RoomEffect.lockSubscribers, RoomEffect.mapDelete s.id,
       RoomEffect.unlockSubscribers] := by
  refine ⟨?_, rfl, rfl⟩
  rw [List.all_eq_true]
  intro e he
  rw [fanOutEffects, List.mem_map] at he
  obtain ⟨q, hq, rfl⟩ := he
  rfl

/-! ## Claim C9 -/

/-- Claim C9: a `terminate` message is never written to the transport — on
dequeuing it the writer loop stops without handing anything to
`ws.Write` — and every frame the writer loop ever hands to the transport
is a `text` or `self` message. -/
theorem C9_terminate_never_on_wire :
    (∀ (p : MessagePayload) (wr : WriteResult),
        writerHandleMsg ⟨"terminate", p⟩ wr = ⟨[], false, true⟩) ∧
    (∀ (events : List WriterEvent) (m : MessageData), m ∈ writerRun events →
        m.type = "text" ∨ m.type = "self") := by
  constructor
  · intro p wr
    rfl
  · intro events
    induction events with
    | nil =>
      intro m hm
      simp [writerRun] at hm
    | cons e rest ih =>
      intro m hm
      cases e with
      | ctxDone => simp [writerRun] at hm
      | queued md wr =>
        by_cases h1 : md.type = "terminate"
        · simp [writerRun, writerHandleMsg, h1] at hm
        · by_cases h2 : md.type = "text" ∨ md.type = "self"
          · cases wr with
            | ok =>
              simp [writerRun, writerHandleMsg, h1, h2] at hm
              rcases hm with rfl | hm
              · exact h2
              · exact ih m hm
            | errNormalClose =>
              simp [writerRun, writerHandleMsg, h1, h2] at hm
              subst hm
              exact h2
            | errGoingAway =>
              simp [writerRun, writerHandleMsg, h1, h2] at hm
              subst hm
              exact h2
            | errOther =>
              simp [writerRun, writerHandleMsg, h1, h2] at hm
              subst hm
              exact h2
          · simp [writerRun, writerHandleMsg, h1, h2] at hm
            exact ih m hm

/-- Claim C9 witness: the terminate sentinel stops the writer loop writing
nothing, and a concrete run writes only its `text` message. -/
theorem C9_witness :
    writerHandleMsg ⟨"terminate", cexPayload⟩ WriteResult.ok =
      ⟨[], false, true⟩ ∧
    (⟨"text", cexPayload⟩ : MessageData) ∈
      writerRun [WriterEvent.queued ⟨"text", cexPayload⟩ WriteResult.ok] ∧
    ((⟨"text", cexPayload⟩ : MessageData).type = "text" ∨
      (⟨"text", cexPayload⟩ : MessageData).type = "self") :=
  ⟨C9_terminate_never_on_wire.1 cexPayload WriteResult.ok,
   by simp [writerRun, writerHandleMsg],
   C9_terminate_never_on_wire.2
     [WriterEvent.queued ⟨"text", cexPayload⟩ WriteResult.ok]
     ⟨"text", cexPayload⟩ (by simp [writerRun, writerHandleMsg])⟩

/-! ## Claim C10 -/

/-- Claim C10: when the writer loop dequeues a message whose kind is none
of `text`, `self` or `terminate`, the `default` branch logs an error and
the loop keeps going: nothing is handed to the transport, the session does
not stop, and the frames written over the rest of the run are exactly
those that would be written without the unknown-kind message. -/
theorem C10_unknown_kind_logged_and_skipped (m : MessageData)
    (wr : WriteResult) (rest : List WriterEvent)
    (h1 : m.type = "terminate" → False) (h2 : m.type = "text" → False)
    (h3 : m.type = "self" → False) :
    writerHandleMsg m wr = ⟨[], true, false⟩ ∧
    writerRun (WriterEvent.queued m wr :: rest) = writerRun rest := by
  have hh : writerHandleMsg m wr = ⟨[], true, false⟩ := by
    have h1n : ¬m.type = "terminate" := fun hc => h1 hc
    have h23 : ¬(m.type = "text" ∨ m.type = "self") := fun hc =>
      hc.elim (fun hx => h2 hx) (fun hx => h3 hx)
    simp [writerHandleMsg, h1n, h23]
  exact ⟨hh, by simp [writerRun, hh]⟩

/-- Claim C10 witness: a message of unknown kind `bogus` evaluated through
the writer loop ahead of a `text` message. -/
theorem C10_witness :
    (⟨"bogus", cexPayload⟩ : MessageData).type = "bogus" ∧
    (writerHandleMsg ⟨"bogus", cexPayload⟩ WriteResult.ok =
      ⟨[], true, false⟩ ∧
    writerRun (WriterEvent.queued ⟨"bogus", cexPayload⟩ WriteResult.ok ::
        [WriterEvent.queued ⟨"text", cexPayload⟩ WriteResult.ok]) =
      writerRun [WriterEvent.queued ⟨"text", cexPayload⟩ WriteResult.ok]) :=
  ⟨rfl,
   C10_unknown_kind_logged_and_skipped ⟨"bogus", cexPayload⟩ WriteResult.ok
     [WriterEvent.queued ⟨"text", cexPayload⟩ WriteResult.ok]
     (by intro hc; simp at hc) (by intro hc; simp at hc)
     (by intro hc; simp at hc)⟩

/-! ## Claim C2 -/

theorem countOccur_append {β : Type} [DecidableEq β] (x : β)
    (l1 l2 : List β) :
    countOccur x (l1 ++ l2) = countOccur x l1 + countOccur x l2 := by
  induction l1 with
  | nil => simp [countOccur]
  | cons y rest ih => simp [countOccur, ih, Nat.add_assoc]

theorem countOccur_map_pair_ne (l : List subscriber) {tm md : MessageData}
    (h : ¬md = tm) (i : String) :
    countOccur (i, md) (l.map (fun member => (member.id, tm))) = 0 := by
  induction l with
  | nil => rfl
  | cons y rest ih =>
    have hne : ¬(y.id, tm) = (i, md) := fun hc => by
      injection hc with h1 h2
      exact h (h2.symm)
    simp [countOccur, hne, ih]

theorem countOccur_fanout_id_notin (l : List subscriber)
    (g : subscriber → Bool) (tm : MessageData) (i : String)
    (hi : i ∈ l.map (fun x => x.id) → False) :
    countOccur (i, tm)
      ((l.filter g).map (fun member => (member.id, tm))) = 0 := by
  induction l with
  | nil => rfl
  | cons y rest ih =>
    have hi1 : ¬i = y.id := fun hc =>
      hi (by rw [List.map_cons, List.mem_cons]; exact Or.inl hc)
    have hi2 : i ∈ rest.map (fun x => x.id) → False := fun hc =>
      hi (by rw [List.map_cons, List.mem_cons]; exact Or.inr hc)
    by_cases hg : g y = true
    · have hne : ¬(y.id, tm) = (i, tm) := fun hc => by
        injection hc with h1 h2
        exact hi1 h1.symm
      simp [List.filter_cons, hg, countOccur, hne, ih hi2]
    · simp [List.filter_cons, hg, ih hi2]

theorem countOccur_fanout_self_id (members : List subscriber)
    (s : subscriber) (tm : MessageData) :
    countOccur (s.id, tm)
      ((members.filter (fun member => decide (s.id ≠ member.id))).map
        (fun member => (member.id, tm))) = 0 := by
  induction members with
  | nil => rfl
  | cons y rest ih =>
    rw [List.filter_cons]
    by_cases hy : s.id = y.id
    · rw [show decide (s.id ≠ y.id) = false from
          decide_eq_false (fun hc => hc hy),
        if_neg Bool.false_ne_true]
      exact ih
    · have hne : ¬(y.id, tm) = (s.id, tm) := fun hc => by
        injection hc with h1 h2
        exact hy h1.symm
      rw [show decide (s.id ≠ y.id) = true from decide_eq_true hy,
        if_pos rfl, List.map_cons]
      simp only [countOccur]
      rw [if_neg hne, Nat.zero_add]
      exact ih

theorem countOccur_fanout_member (members : List subscriber)
    (s m : subscriber) (tm : MessageData)
    (hnd : (members.map (fun x => x.id)).Nodup) (hm : m ∈ members)
    (hne : ¬m.id = s.id) :
    countOccur (m.id, tm)
      ((members.filter (fun member => decide (s.id ≠ member.id))).map
        (fun member => (member.id, tm))) = 1 := by
  induction members with
  | nil => cases hm
  | cons y rest ih =>
    rw [List.map_cons, List.nodup_cons] at hnd
    obtain ⟨hyid, hndr⟩ := hnd
    rw [List.filter_cons]
    rcases List.mem_cons.mp hm with rfl | hm2
    · rw [show decide (s.id ≠ m.id) = true from
          decide_eq_true (fun hc => hne hc.symm),
        if_pos rfl, List.map_cons]
      simp only [countOccur]
      rw [if_pos trivial,
        countOccur_fanout_id_notin rest _ tm m.id (fun hc => hyid hc)]
    · by_cases hy : s.id = y.id
      · rw [show decide (s.id ≠ y.id) = false from
            decide_eq_false (fun hc => hc hy),
          if_neg Bool.false_ne_true]
        exact ih hndr hm2
      · have hym : ¬(y.id, tm) = (m.id, tm) := fun hc => by
          injection hc with h1 h2
          refine hyid ?_
          rw [h1]
          exact List.mem_map.mpr ⟨m, hm2, rfl⟩
        rw [show decide (s.id ≠ y.id) = true from decide_eq_true hy,
          if_pos rfl, List.map_cons]
        simp only [countOccur]
        rw [if_neg hym, Nat.zero_add]
        exact ih hndr hm2

/-- Claim C2: for a frame from subscriber S accepted for fan-out, exactly
one `self` message carrying S's id, display name and the frame text is
enqueued on S's own queue; exactly one `text` message with that same
payload is enqueued on the queue of every current member other than S;
and no `text` message with that payload is ever enqueued on S's own
queue.  Membership ids are distinct because `room.subscribers` is a map
keyed by subscriber id. -/
theorem C2_fanout_exactly_once (members : List subscriber) (s : subscriber)
    (text : String) (m : subscriber)
    (hnd : (members.map (fun x => x.id)).Nodup) (hm : m ∈ members)
    (hne : ¬m.id = s.id) :
    countOccur (s.id, (⟨"self", fanOutPayload s text⟩ : MessageData))
      (fanOutEnqueues members s text) = 1 ∧
    countOccur (m.id, (⟨"text", fanOutPayload s text⟩ : MessageData))
      (fanOutEnqueues members s text) = 1 ∧
    countOccur (s.id, (⟨"text", fanOutPayload s text⟩ : MessageData))
      (fanOutEnqueues members s text) = 0 := by
  have hts : ¬(⟨"self", fanOutPayload s text⟩ : MessageData) =
      ⟨"text", fanOutPayload s text⟩ := by simp
  have hst : ¬(⟨"text", fanOutPayload s text⟩ : MessageData) =
      ⟨"self", fanOutPayload s text⟩ := by simp
  refine ⟨?_, ?_, ?_⟩
  · rw [fanOutEnqueues, countOccur_append]
    rw [countOccur_map_pair_ne _ hts s.id]
    simp [countOccur]
  · rw [fanOutEnqueues, countOccur_append]
    rw [countOccur_fanout_member members s m _ hnd hm hne]
    have htail : ¬(s.id, (⟨"self", fanOutPayload s text⟩ : MessageData)) =
        (m.id, ⟨"text", fanOutPayload s text⟩) := fun hc => by
      injection hc with h1 h2
      exact hts h2
    simp [countOccur, htail]
  · rw [fanOutEnqueues, countOccur_append]
    rw [countOccur_fanout_self_id members s]
    have htail : ¬(s.id, (⟨"self", fanOutPayload s text⟩ : MessageData)) =
        (s.id, ⟨"text", fanOutPayload s text⟩) := fun hc => by
      injection hc with h1 h2
      exact hts h2
    simp [countOccur, htail]

/-- Claim C2 witness: the fan-out delivery counts evaluated on a concrete
two-member room, alice broadcasting `hi` with bob the other member. -/
theorem C2_witness :
    cexBob ∈ [cexAlice, cexBob] ∧
    (countOccur (cexAlice.id,
        (⟨"self", fanOutPayload cexAlice "hi"⟩ : MessageData))
        (fanOutEnqueues [cexAlice, cexBob] cexAlice "hi") = 1 ∧
      countOccur (cexBob.id,
        (⟨"text", fanOutPayload cexAlice "hi"⟩ : MessageData))
        (fanOutEnqueues [cexAlice, cexBob] cexAlice "hi") = 1 ∧
      countOccur (cexAlice.id,
        (⟨"text", fanOutPayload cexAlice "hi"⟩ : MessageData))
        (fanOutEnqueues [cexAlice, cexBob] cexAlice "hi") = 0) :=
  ⟨by decide,
   C2_fanout_exactly_once [cexAlice, cexBob] cexAlice "hi" cexBob
     (by decide) (by decide) (by decide)⟩
